import Mathlib

/-!
Verification of `download_plots.py` (omstools): a shallow embedding of the
input parser `parse_input`, the metadata lookup `get_fill_metadata`, the
orchestrator `download_plots`, and the `__main__` command-line flow, together
with theorems settling the specification's claims about them.
-/

namespace OmsTools

/-! ### Python string primitives

`parse_input` relies on `str.splitlines`, `str.strip`, `str.split(',')`,
`str.split()` and `int(...)`.  These are embedded here with Python's
semantics (whitespace set, line-boundary set, `\r\n` as one boundary,
no trailing empty line, `int` accepting an optional sign and underscores
between ASCII digits). -/

/-- Code points Python's `str.strip()` / `str.split()` treat as whitespace. -/
def pySpaceCodes : List Nat :=
  [9, 10, 11, 12, 13, 28, 29, 30, 31, 32, 0x85, 0xa0, 0x1680,
   0x2000, 0x2001, 0x2002, 0x2003, 0x2004, 0x2005, 0x2006, 0x2007,
   0x2008, 0x2009, 0x200a, 0x2028, 0x2029, 0x202f, 0x205f, 0x3000]

def pyIsSpace (c : Char) : Bool := pySpaceCodes.contains c.toNat

/-- Code points Python's `str.splitlines()` treats as line boundaries. -/
def lineBreakCodes : List Nat :=
  [10, 11, 12, 13, 28, 29, 30, 0x85, 0x2028, 0x2029]

def isLineBreak (c : Char) : Bool := lineBreakCodes.contains c.toNat

/-- `str.splitlines()`: `\r\n` is a single boundary and a trailing boundary
produces no trailing empty line. -/
def splitlinesCore : List Char → List Char → List (List Char)
  | [], acc => if acc.isEmpty then [] else [acc.reverse]
  | '\r' :: '\n' :: rest, acc => acc.reverse :: splitlinesCore rest []
  | c :: rest, acc =>
    if isLineBreak c then acc.reverse :: splitlinesCore rest []
    else splitlinesCore rest (c :: acc)

/-- `str.strip()` on a character list. -/
def pyStripList (l : List Char) : List Char :=
  ((l.dropWhile pyIsSpace).reverse.dropWhile pyIsSpace).reverse

/-- `str.strip()`. -/
def pyStrip (s : String) : String := String.mk (pyStripList s.data)

/-- `str.split(sep)` for a one-character separator: keeps empty segments. -/
def splitSepCore (sep : Char) : List Char → List Char → List (List Char)
  | [], acc => [acc.reverse]
  | c :: rest, acc =>
    if c = sep then acc.reverse :: splitSepCore sep rest []
    else splitSepCore sep rest (c :: acc)

def splitSep (sep : Char) (l : List Char) : List (List Char) :=
  splitSepCore sep l []

/-- `str.split()` with no argument: splits on runs of whitespace, never
returns empty tokens. -/
def pySplitWsCore : List Char → List Char → List (List Char)
  | [], acc => if acc.isEmpty then [] else [acc.reverse]
  | c :: rest, acc =>
    if pyIsSpace c then
      if acc.isEmpty then pySplitWsCore rest []
      else acc.reverse :: pySplitWsCore rest []
    else pySplitWsCore rest (c :: acc)

def pySplitWs (l : List Char) : List (List Char) := pySplitWsCore l []

def digitVal (c : Char) : Option Nat :=
  if '0' ≤ c ∧ c ≤ '9' then some (c.toNat - '0'.toNat) else none

/-- Continuation of `int` digit parsing: a sequence of ASCII digits in which
a single underscore may stand between two digits (CPython's
`digitpart = digit (["_"] digit)*`). -/
def digitsRest : List Char → Nat → Option Nat
  | [], acc => some acc
  | ['_'], _ => none
  | '_' :: c :: rest, acc =>
    match digitVal c with
    | some d => digitsRest rest (acc * 10 + d)
    | none => none
  | c :: rest, acc =>
    match digitVal c with
    | some d => digitsRest rest (acc * 10 + d)
    | none => none

/-- A full `digitpart`: nonempty, starts with a digit. -/
def digitsValue : List Char → Option Nat
  | [] => none
  | c :: rest =>
    match digitVal c with
    | some d => digitsRest rest d
    | none => none

/-- Python `int(token)` in base 10: surrounding whitespace stripped, optional
sign, then a `digitpart`; `none` models the `ValueError` raise. -/
def pyIntCore (l : List Char) : Option Int :=
  match pyStripList l with
  | '+' :: rest => (digitsValue rest).map (fun n => (n : Int))
  | '-' :: rest => (digitsValue rest).map (fun n => -(n : Int))
  | rest => (digitsValue rest).map (fun n => (n : Int))

/-! ### The input parser (`parse_input`, lines 172-207) -/

/-- Body of the inner `for part in comma_parts` loop: strip the segment, skip
it when empty, split on whitespace, take only the first token, and keep the
integer it parses to (the `try`/`except ValueError: pass` drops failures). -/
def partValue (part : List Char) : List Int :=
  let stripped := pyStripList part
  if stripped.isEmpty then []
  else
    match pySplitWs stripped with
    | [] => []
    | t :: _ =>
      match pyIntCore t with
      | some n => [n]
      | none => []

/-- Body of the outer `for line in lines` loop: strip, skip empty lines and
lines starting with a hash, truncate at an inline hash, split on commas,
process the segments left to right. -/
def processLine (rawLine : List Char) : List Int :=
  let line := pyStripList rawLine
  if line.isEmpty then []
  else if line.head? = some '#' then []
  else
    let body := if line.contains '#' then line.takeWhile (fun c => c != '#') else line
    ((splitSep ',' body).map partValue).flatten

/-- `parse_input(input_str)`: per-line results appended in encounter order. -/
def parse_input (s : String) : List Int :=
  ((splitlinesCore s.data []).map processLine).flatten

/-! ### Exception-aware rerun of `parse_input` (for the totality claim)

The only operation in `parse_input` that can raise is `int(tokens[0])`
(a `ValueError`), and it stands inside `try ... except ValueError: pass`.
The `E` functions thread a potential exception through every step exactly
where Python would propagate one; proving they always return `Except.ok`
is the embedded form of "`parse` never raises". -/

def pyIntE (l : List Char) : Except String Int :=
  match pyIntCore l with
  | some n => Except.ok n
  | none => Except.error "invalid literal for int() with base 10"

def partValueE (part : List Char) : Except String (List Int) :=
  let stripped := pyStripList part
  if stripped.isEmpty then Except.ok []
  else
    match pySplitWs stripped with
    | [] => Except.ok []
    | t :: _ =>
      match pyIntE t with
      | Except.ok n => Except.ok [n]
      | Except.error _ => Except.ok []

def partsE : List (List Char) → Except String (List Int)
  | [] => Except.ok []
  | p :: rest => do
    let xs ← partValueE p
    let ys ← partsE rest
    pure (xs ++ ys)

def processLineE (rawLine : List Char) : Except String (List Int) :=
  let line := pyStripList rawLine
  if line.isEmpty then Except.ok []
  else if line.head? = some '#' then Except.ok []
  else
    let body := if line.contains '#' then line.takeWhile (fun c => c != '#') else line
    partsE (splitSep ',' body)

def linesE : List (List Char) → Except String (List Int)
  | [] => Except.ok []
  | l :: rest => do
    let xs ← processLineE l
    let ys ← linesE rest
    pure (xs ++ ys)

def parse_inputE (s : String) : Except String (List Int) :=
  linesE (splitlinesCore s.data [])

/-! ### The reference parsing rules of spec section 4.1

Written from the spec's wording, to be compared with `parse_input`:
rule 1 strips each line, rules 2-3 skip empty and comment lines, rule 4
truncates at the first hash, rule 5 splits on commas, rules 6-7 take only
the first whitespace token of each non-empty segment and keep it when it
parses as a base-10 integer, rule 8 appends in encounter order. -/

def specSegmentValue (seg : List Char) : Option Int :=
  let stripped := pyStripList seg
  if stripped.isEmpty then none
  else
    match pySplitWs stripped with
    | [] => none
    | t :: _ => pyIntCore t

def specLineValues (strippedLine : List Char) : List Int :=
  if strippedLine.isEmpty then []
  else if strippedLine.head? = some '#' then []
  else (splitSep ',' (strippedLine.takeWhile (fun c => c != '#'))).filterMap specSegmentValue

def specParse (s : String) : List Int :=
  (((splitlinesCore s.data []).map pyStripList).map specLineValues).flatten

/-! ### URL construction (lines 88-125)

`urllib.parse.urlencode(params, safe='|')` percent-encodes keys and values
with `quote_plus`: spaces become `+`, ASCII alphanumerics and `_ . - ~` and
the extra safe character `|` pass through, anything else becomes `%XX` with
uppercase hex (all parameter strings in this program are ASCII). -/

def base_url : String := "https://cmsoms.cern.ch/cms/fills/report/fullscreen/12656"

def base_params : List (String × String) :=
  [("stable_beams", "true"),
   ("props.21748_12648.plots", "Delivered lumi|Recorded lumi"),
   ("props.21748_12648.plotbands", "downtimes"),
   ("props.21748_12648.plotlines", "run_starts|stable_beams"),
   ("props.21847_21846.plots",
    "B1orB2|Intensity beam 1|Intensity beam 2|beam energy|vertical crossing angle|beta* Y|beta* X"),
   ("props.21847_21846.plotbands", "downtimes"),
   ("props.21847_21846.plotlines", "run_starts|stable_beams")]

def hexUpper (n : Nat) : Char :=
  if n < 10 then Char.ofNat (48 + n) else Char.ofNat (55 + n)

def quotePlusChar (c : Char) : List Char :=
  if c = ' ' then ['+']
  else if c.isAlphanum || c = '_' || c = '.' || c = '-' || c = '~' || c = '|' then [c]
  else ['%', hexUpper (c.toNat / 16 % 16), hexUpper (c.toNat % 16)]

def quotePlus (s : String) : String :=
  String.mk ((s.data.map quotePlusChar).flatten)

def urlencode (params : List (String × String)) : String :=
  String.intercalate "&" (params.map (fun kv => quotePlus kv.1 ++ "=" ++ quotePlus kv.2))

/-- `full_url` for one fill: the base parameters with `cms_fill` added last
(`params = base_params.copy(); params["cms_fill"] = str(fill_number)` keeps
dict insertion order). -/
def fillUrl (fill_number : Int) : String :=
  base_url ++ "?" ++ urlencode (base_params ++ [("cms_fill", toString fill_number)])

/-! ### Metadata lookup (`get_fill_metadata`, lines 10-51)

The OMS API call is an external collaborator; its outcome is an input of the
embedded function.  `failure` stands for any exception inside the `try`
block (import error, auth error, transport error, malformed response),
`success` for a decoded response whose `data` field is the given list of
entries.  Attribute values may be absent (`attributes.get` defaults). -/

structure FillAttributes where
  fill_type_runtime : Option String
  bunches_colliding : Option Int
  start_time : Option String
deriving DecidableEq

inductive ApiOutcome where
  | failure (msg : String)
  | success (data : List FillAttributes)
deriving DecidableEq

structure Metadata where
  bunches : Int
  system : String
  fillType : String
  year : String
deriving DecidableEq

/-- Python `needle in hay` on strings. -/
def containsSub (needle : List Char) : List Char → Bool
  | [] => needle.isEmpty
  | c :: rest => needle.isPrefixOf (c :: rest) || containsSub needle rest

/-- `str.upper()` (ASCII; all strings compared here are ASCII). -/
def strUpper (s : String) : String := String.mk (s.data.map Char.toUpper)

/-- `get_fill_metadata(fill_number)`: any exception is caught (a warning is
printed) and the function returns `None`; so does an empty `data` list.
Otherwise the first entry's attributes are read with defaults
(`"UNKNOWN"`, `0`, `""`), `year` is `start_time[:4]` when the start time is
non-empty and `"UNKNOWN"` otherwise, and `system` is `"PbPb"` exactly when
the truthy fill type's upper-case form contains `"ION"` or `"PBPB"`
(the initial value and the `elif` branch both give `"pp"`). -/
def get_fill_metadata (outcome : ApiOutcome) : Option Metadata :=
  match outcome with
  | ApiOutcome.failure _ => none
  | ApiOutcome.success data_list =>
    match data_list with
    | [] => none
    | data :: _ =>
      let fill_type := data.fill_type_runtime.getD "UNKNOWN"
      let bunches := data.bunches_colliding.getD 0
      let start_time := data.start_time.getD ""
      let year := if start_time != "" then String.mk (start_time.data.take 4) else "UNKNOWN"
      let ftU := (strUpper fill_type).data
      let system :=
        if (fill_type != "") && (containsSub ("ION".data) ftU || containsSub ("PBPB".data) ftU)
          then "PbPb"
        else if (fill_type != "") && containsSub ("PROTON".data) ftU then "pp"
        else "pp"
      some { bunches := bunches, system := system, fillType := fill_type, year := year }

/-! ### Per-fill orchestration (`download_plots` loop body, lines 111-164) -/

/-- `filename_suffix` (lines 157-160). -/
def metaSuffix (meta : Option Metadata) : String :=
  match meta with
  | some m => "_" ++ m.system ++ "_" ++ toString m.bunches ++ "b_" ++ m.year
  | none => ""

/-- `os.path.join("fills", f"fill_{fill_number}{filename_suffix}.png")`
(line 162). -/
def fillFilename (fill_number : Int) (meta : Option Metadata) : String :=
  "fills" ++ "/" ++ "fill_" ++ toString fill_number ++ metaSuffix meta ++ ".png"

/-- Observable effects of the orchestrator on its collaborators. -/
inductive Event where
  | navigate (url : String)
  | sleepSecs (n : Nat)
  | runScript (fill_number : Int)
  | warn (msg : String)
  | screenshot (path : String)
  | quitBrowser
deriving DecidableEq

/-- Outcomes of the external calls made for one fill.  `navOutcome` is
`driver.get(full_url)`, `scriptOutcome` is `driver.execute_script(script)`
(only reached when metadata was obtained), `shotOutcome` is
`driver.save_screenshot(filename)`. -/
structure FillEnv where
  apiOutcome : ApiOutcome
  navOutcome : Except String Unit
  scriptOutcome : Except String Unit
  shotOutcome : Except String Unit

/-- One iteration of `for fill_number in fill_numbers` (lines 111-164):
the event trace it produces and the exception it raises, if any.  The
metadata lookup never raises (failures were already turned into `none`);
a script failure is caught and logged (lines 151-155); navigation and
screenshot failures propagate out of the iteration. -/
def processFill (fill_number : Int) (env : FillEnv) : List Event × Option String :=
  let meta := get_fill_metadata env.apiOutcome
  let full_url := fillUrl fill_number
  match env.navOutcome with
  | Except.error e => ([Event.navigate full_url], some e)
  | Except.ok _ =>
    let evs1 := [Event.navigate full_url, Event.sleepSecs 5]
    let evs2 :=
      match meta with
      | some _ =>
        match env.scriptOutcome with
        | Except.ok _ => [Event.runScript fill_number]
        | Except.error e => [Event.warn e]
      | none => []
    match env.shotOutcome with
    | Except.error e => (evs1 ++ evs2, some e)
    | Except.ok _ => (evs1 ++ evs2 ++ [Event.screenshot (fillFilename fill_number meta)], none)

/-- The `for` loop over the requested fills: iterations run in order until
one raises; the first exception propagates and ends the loop. -/
def runFills : List (Int × FillEnv) → List Event × Option String
  | [] => ([], none)
  | (f, env) :: rest =>
    let step := processFill f env
    match step.2 with
    | some e => (step.1, some e)
    | none => (step.1 ++ (runFills rest).1, (runFills rest).2)

/-! ### Orchestrator control flow (`download_plots`, lines 53-170) -/

/-- External outcomes of the orchestrator's one-time steps.
`driverInstall` is `ChromeDriverManager().install()` (its `try` returns on
failure, line 78), `launch` is `webdriver.Chrome(...)` (returns on failure,
line 85), `baseNav` is `driver.get(base_url)` (line 90, inside the big
`try`), and `interrupted` models a `KeyboardInterrupt` delivered at the
`input(...)` pause (line 98) — a `BaseException` that `except Exception`
does not catch. -/
structure OrchEnv where
  driverInstall : Except String Unit
  launch : Except String Unit
  baseNav : Except String Unit
  interrupted : Bool
  fills : List (Int × FillEnv)

/-- How `download_plots` gives control back to its caller. -/
inductive ExitKind where
  | earlyReturn (msg : String)
  | completed
  | propagated (msg : String)
deriving DecidableEq

/-- `download_plots(fill_numbers)`: the driver-install and launch failures
return before a session exists; once a session exists the body runs inside
`try ... except Exception ... finally: driver.quit()`, so the quit event is
appended on the normal path, on the caught-`Exception` path, and on the
path of a propagating `KeyboardInterrupt`. -/
def download_plots (env : OrchEnv) : List Event × ExitKind :=
  match env.driverInstall with
  | Except.error e => ([], ExitKind.earlyReturn e)
  | Except.ok _ =>
    match env.launch with
    | Except.error e => ([], ExitKind.earlyReturn e)
    | Except.ok _ =>
      match env.baseNav with
      | Except.error _ =>
        ([Event.navigate base_url, Event.quitBrowser], ExitKind.completed)
      | Except.ok _ =>
        if env.interrupted then
          ([Event.navigate base_url, Event.quitBrowser],
           ExitKind.propagated "KeyboardInterrupt")
        else
          let r := runFills env.fills
          ([Event.navigate base_url] ++ r.1 ++ [Event.quitBrowser],
           ExitKind.completed)

/-! ### The `__main__` command-line flow (lines 209-249) -/

/-- External inputs of `__main__`: `argv` is `sys.argv[1:]`, `isFile` is
`os.path.isfile`, `readFile` is `open(...).read()` with its possible
`OSError`, `stdinInterrupted` models a `KeyboardInterrupt` at `input("> ")`,
`stdinLine` the line read otherwise. -/
structure CliEnv where
  argv : List String
  isFile : String → Bool
  readFile : String → Except String String
  stdinInterrupted : Bool
  stdinLine : String

/-- How the `__main__` block ends. -/
inductive MainOutcome where
  | exited (code : Nat)
  | uncaughtError (msg : String)
  | ranFills (fills : List Int)
  | printedNoFills
deriving DecidableEq

/-- Lines 245-249: run `download_plots` on a non-empty list, otherwise
print `"No valid fill numbers provided."`. -/
def finishWith (fills : List Int) : MainOutcome :=
  if fills.isEmpty then MainOutcome.printedNoFills else MainOutcome.ranFills fills

/-- The `__main__` block.  With arguments: only `sys.argv[1]` is tested with
`os.path.isfile`; if it is a file it is read inside `try ... except` that
prints and exits with status 1, otherwise all arguments are joined with
spaces and parsed.  With no arguments: the interactive branch sits in a
`try` whose only handler is `except KeyboardInterrupt: sys.exit(0)`, so a
read failure there propagates as an uncaught exception. -/
def mainFlow (env : CliEnv) : MainOutcome :=
  match env.argv with
  | first_arg :: rest =>
    if env.isFile first_arg then
      match env.readFile first_arg with
      | Except.ok input_str => finishWith (parse_input input_str)
      | Except.error _ => MainOutcome.exited 1
    else
      finishWith (parse_input (String.intercalate " " (first_arg :: rest)))
  | [] =>
    if env.stdinInterrupted then MainOutcome.exited 0
    else
      let user_input := env.stdinLine
      if pyStrip user_input != "" then
        if env.isFile (pyStrip user_input) then
          match env.readFile (pyStrip user_input) with
          | Except.ok content => finishWith (parse_input content)
          | Except.error e => MainOutcome.uncaughtError e
        else finishWith (parse_input user_input)
      else MainOutcome.printedNoFills

/-! ### A minimal filesystem model (for the overwrite part of the filename
claim): `save_screenshot` writes the image at the path, replacing any prior
file of that name. -/

def fsWrite (fs : List (String × String)) (path : String) (content : String) :
    List (String × String) :=
  (path, content) :: fs.filter (fun e => e.1 != path)

def fsRead (fs : List (String × String)) (path : String) : Option String :=
  (fs.find? (fun e => e.1 == path)).map (fun e => e.2)

/-! ### Concrete environments used in witnesses and counterexamples -/

/-- A per-fill environment whose metadata lookup fails and whose browser
steps succeed. -/
def softFailEnv : FillEnv :=
  { apiOutcome := ApiOutcome.failure "connection refused",
    navOutcome := Except.ok (), scriptOutcome := Except.ok (),
    shotOutcome := Except.ok () }

/-- A per-fill environment whose navigation crashes. -/
def hardFailEnv : FillEnv :=
  { apiOutcome := ApiOutcome.failure "auth",
    navOutcome := Except.error "net::ERR", scriptOutcome := Except.ok (),
    shotOutcome := Except.ok () }

/-- A per-fill environment with failing metadata and script steps but
successful navigation and screenshot. -/
def softSoftEnv : FillEnv :=
  { apiOutcome := ApiOutcome.failure "auth",
    navOutcome := Except.ok (), scriptOutcome := Except.error "no h3",
    shotOutcome := Except.ok () }

/-- A fully healthy per-fill environment with an empty metadata response. -/
def okEnv : FillEnv :=
  { apiOutcome := ApiOutcome.success [], navOutcome := Except.ok (),
    scriptOutcome := Except.ok (), shotOutcome := Except.ok () }

/-- An orchestrator run interrupted at the login pause. -/
def interruptedOrchEnv : OrchEnv :=
  { driverInstall := Except.ok (), launch := Except.ok (),
    baseNav := Except.ok (), interrupted := true, fills := [] }

/-- A response entry whose start time is shorter than four characters. -/
def shortStartEntry : FillAttributes :=
  { fill_type_runtime := some "PROTONS", bunches_colliding := some 2400,
    start_time := some "ab" }

/-- A command-line run naming an existing but unreadable file. -/
def argvUnreadableEnv : CliEnv :=
  { argv := ["fills.txt", "11316"], isFile := fun _ => true,
    readFile := fun _ => Except.error "Permission denied",
    stdinInterrupted := false, stdinLine := "" }

/-- An interactive run naming an existing but unreadable file. -/
def promptUnreadableEnv : CliEnv :=
  { argv := [], isFile := fun _ => true,
    readFile := fun _ => Except.error "Permission denied",
    stdinInterrupted := false, stdinLine := "fills.txt" }

/-- Two arguments that both name files, and its one-argument variant. -/
def twoFilesEnv : CliEnv :=
  { argv := ["a.txt", "b.txt"], isFile := fun _ => true,
    readFile := fun _ => Except.ok "11316", stdinInterrupted := false,
    stdinLine := "" }

def oneFileEnv : CliEnv :=
  { argv := ["a.txt"], isFile := fun _ => true,
    readFile := fun _ => Except.ok "11316", stdinInterrupted := false,
    stdinLine := "" }

/-- Two arguments, neither naming a file. -/
def noFileEnv : CliEnv :=
  { argv := ["11316", "229854"], isFile := fun _ => false,
    readFile := fun _ => Except.error "absent", stdinInterrupted := false,
    stdinLine := "" }

/-! ### Lemmas about the parser -/

theorem takeWhile_ne_of_not_contains (a : Char) (l : List Char)
    (h : l.contains a = false) : l.takeWhile (fun c => c != a) = l := by
  induction l with
  | nil => rfl
  | cons c rest ih =>
    simp only [List.contains_cons, Bool.or_eq_false_iff, beq_eq_false_iff_ne, ne_eq] at h
    simp only [List.takeWhile_cons]
    rw [if_pos (by simp only [bne_iff_ne, ne_eq]; exact fun hh => h.1 hh.symm), ih h.2]

theorem partValue_eq_spec (p : List Char) :
    partValue p = (specSegmentValue p).toList := by
  simp only [partValue, specSegmentValue]
  split
  · rfl
  · split
    · rfl
    · cases h3 : pyIntCore _ <;> simp

theorem flatten_map_toList {α β : Type} (f : α → Option β) (l : List α) :
    (l.map (fun a => (f a).toList)).flatten = l.filterMap f := by
  induction l with
  | nil => rfl
  | cons a l ih => cases h : f a <;> simp [List.filterMap_cons, h, ih]

theorem processLine_eq_spec (raw : List Char) :
    processLine raw = specLineValues (pyStripList raw) := by
  simp only [processLine, specLineValues]
  split
  · rfl
  · split
    · rfl
    · have hbody :
          (if (pyStripList raw).contains '#' then
            (pyStripList raw).takeWhile (fun c => c != '#')
          else pyStripList raw) =
          (pyStripList raw).takeWhile (fun c => c != '#') := by
        rcases hc : (pyStripList raw).contains '#' with _ | _
        · rw [if_neg (by simp [hc]), takeWhile_ne_of_not_contains _ _ hc]
        · rw [if_pos (by simp [hc])]
      rw [hbody]
      have hmap : (splitSep ',' ((pyStripList raw).takeWhile (fun c => c != '#'))).map
          partValue =
          (splitSep ',' ((pyStripList raw).takeWhile (fun c => c != '#'))).map
          (fun q => (specSegmentValue q).toList) :=
        List.map_congr_left (fun q _ => partValue_eq_spec q)
      rw [hmap, flatten_map_toList]

theorem parse_input_eq_spec (s : String) : parse_input s = specParse s := by
  unfold parse_input specParse
  rw [List.map_map]
  have h : processLine = fun raw => specLineValues (pyStripList raw) :=
    funext processLine_eq_spec
  rw [h]
  rfl

theorem partValueE_eq (p : List Char) : partValueE p = Except.ok (partValue p) := by
  simp only [partValueE, partValue, pyIntE]
  split
  · rfl
  · split
    · rfl
    · cases h3 : pyIntCore _ <;> simp

theorem partsE_eq (ps : List (List Char)) :
    partsE ps = Except.ok ((ps.map partValue).flatten) := by
  induction ps with
  | nil => rfl
  | cons p rest ih =>
    simp only [partsE, partValueE_eq, ih, List.map_cons, List.flatten_cons]
    rfl

theorem processLineE_eq (raw : List Char) :
    processLineE raw = Except.ok (processLine raw) := by
  simp only [processLineE, processLine]
  split
  · rfl
  · split
    · rfl
    · exact partsE_eq _

theorem linesE_eq (ls : List (List Char)) :
    linesE ls = Except.ok ((ls.map processLine).flatten) := by
  induction ls with
  | nil => rfl
  | cons l rest ih =>
    simp only [linesE, processLineE_eq, ih, List.map_cons, List.flatten_cons]
    rfl

theorem parse_inputE_eq (s : String) : parse_inputE s = Except.ok (parse_input s) :=
  linesE_eq _


theorem specSegmentValue_some {p : List Char} {n : Int}
    (h : specSegmentValue p = some n) :
    ∃ t ts, pySplitWs (pyStripList p) = t :: ts ∧ pyIntCore t = some n := by
  simp only [specSegmentValue] at h
  rcases he : (pyStripList p).isEmpty with _ | _
  · rw [if_neg (by simp [he])] at h
    rcases hw : pySplitWs (pyStripList p) with _ | ⟨t, ts⟩
    · rw [hw] at h
      exact Option.noConfusion h
    · rw [hw] at h
      exact ⟨t, ts, rfl, h⟩
  · rw [if_pos (by simp [he])] at h
    exact Option.noConfusion h

/-! ### Claim theorems for the parser -/

/-- C1: for every input string, `parse_input` returns exactly the sequence
given by the reference rules of spec section 4.1 (blank and comment lines
yield nothing, inline comments are stripped, segments split on commas,
only the first whitespace token of each non-empty segment is parsed as a
base-10 integer with failures dropped, results appended in encounter order
with duplicates preserved); in particular on the spec's worked example it
returns `[11316, 222]`. -/
theorem C1_parse_matches_reference_rules :
    (∀ s : String, parse_input s = specParse s) ∧
    parse_input "# comment\n11316 1032, 222 # trailing\n" = [11316, 222] :=
  ⟨parse_input_eq_spec, by decide⟩

/-- C2: `parse_input` is total: its exception-threaded rerun `parse_inputE`
returns `Except.ok` on every input (the only fallible step, `int`, is
wrapped in `try`/`except`), and in the worst cases (empty input,
comment-only input, no numeric tokens) the result is the empty sequence. -/
theorem C2_parse_never_raises :
    (∀ s : String, parse_inputE s = Except.ok (parse_input s)) ∧
    parse_input "" = [] ∧
    parse_input "   \n# only comments\n" = [] ∧
    parse_input "abc def" = [] :=
  ⟨parse_inputE_eq, by decide, by decide, by decide⟩

/-- C7 counterexample: the claim says the result of `parse_input` never
contains zero or a negative number, but `parse_input "0" = [0]` and
`parse_input "-5" = [-5]`: Python's `int` accepts a sign and the code
applies no positivity filter. -/
theorem C7_counterexample :
    parse_input "0" = [0] ∧ parse_input "-5" = [-5] ∧
    ¬((0 : Int) < 0) ∧ ¬((0 : Int) < -5) := by
  refine ⟨by decide, by decide, by decide, by decide⟩

/-- C7 amended: every integer in the result of `parse_input` comes from the
input itself: it is the base-10 integer parse of the first whitespace token
of some comma-separated segment of some line of the input (the line
stripped and truncated at its first hash); no positivity constraint is
imposed, so zero and negative values can be returned. -/
theorem C7_amended_values_from_tokens (s : String) (n : Int)
    (h : n ∈ parse_input s) :
    ∃ line ∈ splitlinesCore s.data [],
      ∃ seg ∈ splitSep ',' ((pyStripList line).takeWhile (fun c => c != '#')),
        ∃ t ts, pySplitWs (pyStripList seg) = t :: ts ∧ pyIntCore t = some n := by
  unfold parse_input at h
  rw [List.mem_flatten] at h
  obtain ⟨lv, hlv, hn⟩ := h
  rw [List.mem_map] at hlv
  obtain ⟨line, hline, rfl⟩ := hlv
  refine ⟨line, hline, ?_⟩
  rw [processLine_eq_spec] at hn
  simp only [specLineValues] at hn
  split at hn
  · simp at hn
  · split at hn
    · simp at hn
    · rw [List.mem_filterMap] at hn
      obtain ⟨seg, hseg, hv⟩ := hn
      exact ⟨seg, hseg, specSegmentValue_some hv⟩

/-- Witness for the amended C7 at a concrete input. -/
theorem C7_amended_witness :
    ∃ line ∈ splitlinesCore ("7" : String).data [],
      ∃ seg ∈ splitSep ',' ((pyStripList line).takeWhile (fun c => c != '#')),
        ∃ t ts, pySplitWs (pyStripList seg) = t :: ts ∧ pyIntCore t = some 7 :=
  C7_amended_values_from_tokens "7" 7 (by decide)

/-! ### Lemmas about the orchestrator loop -/

theorem runFills_cons_ok (f : Int) (env : FillEnv) (rest : List (Int × FillEnv))
    (h : (processFill f env).2 = none) :
    runFills ((f, env) :: rest) =
      ((processFill f env).1 ++ (runFills rest).1, (runFills rest).2) := by
  simp only [runFills, h]

theorem runFills_cons_err (f : Int) (env : FillEnv) (rest : List (Int × FillEnv))
    (e : String) (h : (processFill f env).2 = some e) :
    runFills ((f, env) :: rest) = ((processFill f env).1, some e) := by
  simp only [runFills, h]

theorem runFills_indep_of_rest (f : Int) (env : FillEnv)
    (hstep : (processFill f env).2 ≠ none) :
    ∀ (pre rest rest' : List (Int × FillEnv)), (runFills pre).2 = none →
      runFills (pre ++ (f, env) :: rest) = runFills (pre ++ (f, env) :: rest') := by
  intro pre
  induction pre with
  | nil =>
    intro rest rest' _
    rcases h : (processFill f env).2 with _ | e
    · exact absurd h hstep
    · simp only [List.nil_append, runFills_cons_err f env _ e h]
  | cons p pre ih =>
    intro rest rest' hpre
    obtain ⟨g, genv⟩ := p
    rcases h : (processFill g genv).2 with _ | e
    · have hpre' : (runFills pre).2 = none := by
        rw [runFills_cons_ok g genv pre h] at hpre
        exact hpre
      simp only [List.cons_append, runFills_cons_ok g genv _ h]
      rw [ih rest rest' hpre']
    · rw [runFills_cons_err g genv pre e h] at hpre
      simp at hpre

theorem processFill_exc_iff (f : Int) (env : FillEnv) :
    (processFill f env).2 ≠ none ↔
      env.navOutcome ≠ Except.ok () ∨ env.shotOutcome ≠ Except.ok () := by
  rcases hn : env.navOutcome with e | ⟨⟩
  · simp [processFill, hn]
  · rcases hs : env.shotOutcome with e | ⟨⟩
    · simp [processFill, hn, hs]
    · simp [processFill, hn, hs]

/-! ### Claim theorems for the orchestrator -/

/-- C3: any failed metadata lookup (transport or auth error, malformed
response, or no matching entry in the response) yields `none`, and the
per-fill procedure then runs to completion with defaults: no script
injection, an exception-free iteration, and a screenshot under the
suffix-free filename (`metaSuffix none = ""`). -/
theorem C3_metadata_failure_degrades :
    (∀ msg, get_fill_metadata (ApiOutcome.failure msg) = none) ∧
    get_fill_metadata (ApiOutcome.success []) = none ∧
    (∀ (f : Int) (env : FillEnv), get_fill_metadata env.apiOutcome = none →
      env.navOutcome = Except.ok () → env.shotOutcome = Except.ok () →
      processFill f env =
        ([Event.navigate (fillUrl f), Event.sleepSecs 5,
          Event.screenshot (fillFilename f none)], none) ∧
      metaSuffix none = "") := by
  refine ⟨fun _ => rfl, rfl, fun f env hmeta hnav hshot => ⟨?_, rfl⟩⟩
  simp only [processFill, hmeta, hnav, hshot]
  rfl

/-- Witness for C3 at a concrete fill and environment. -/
theorem C3_witness :
    processFill 229854 softFailEnv =
      ([Event.navigate (fillUrl 229854), Event.sleepSecs 5,
        Event.screenshot (fillFilename 229854 none)], none) ∧
    metaSuffix none = "" :=
  C3_metadata_failure_degrades.2.2 229854 softFailEnv rfl rfl rfl

/-- C4: the output path is a deterministic function of the identifier and,
when metadata is present, the system, bunch count and year (the fill type
does not enter the name): `fills/fill_<id>.png` without metadata and
`fills/fill_<id>_<system>_<bunches>b_<year>.png` with metadata; rerunning
writes to the same path, and a write replaces any prior file of that name. -/
theorem C4_filename_deterministic :
    (∀ id : Int, fillFilename id none = "fills/fill_" ++ toString id ++ ".png") ∧
    (∀ (id b : Int) (sys t yr : String),
      fillFilename id (some { bunches := b, system := sys, fillType := t, year := yr }) =
        "fills/fill_" ++ toString id ++ "_" ++ sys ++ "_" ++ toString b ++
          "b_" ++ yr ++ ".png") ∧
    (∀ (id b : Int) (sys t t' yr : String),
      fillFilename id (some { bunches := b, system := sys, fillType := t, year := yr }) =
        fillFilename id (some { bunches := b, system := sys, fillType := t', year := yr })) ∧
    (∀ (fs : List (String × String)) (path content : String),
      fsRead (fsWrite fs path content) path = some content) := by
  refine ⟨fun id => ?_, fun id b sys t yr => ?_, fun id b sys t t' yr => rfl,
    fun fs path content => ?_⟩
  · simp only [fillFilename, metaSuffix, String.append_empty]
    rw [show ("fills" : String) ++ "/" ++ "fill_" = "fills/fill_" from rfl]
  · simp only [fillFilename, metaSuffix]
    rw [show ("fills" : String) ++ "/" ++ "fill_" = "fills/fill_" from rfl]
    simp [String.append_assoc]
  · simp [fsRead, fsWrite]

/-- C5: a navigation or screenshot failure in some iteration makes the loop's
result independent of every later fill (they are never attempted), these are
exactly the exceptions an iteration can raise, while soft failures
(metadata lookup, DOM script) leave the iteration exception-free and the
loop continues with the next fill. -/
theorem C5_hard_errors_abort_batch :
    (∀ (pre : List (Int × FillEnv)) (f : Int) (env : FillEnv)
       (rest rest' : List (Int × FillEnv)),
      (runFills pre).2 = none → (processFill f env).2 ≠ none →
      runFills (pre ++ (f, env) :: rest) = runFills (pre ++ (f, env) :: rest')) ∧
    (∀ (f : Int) (env : FillEnv), env.navOutcome = Except.ok () →
      env.shotOutcome = Except.ok () → (processFill f env).2 = none) ∧
    (∀ (f : Int) (env : FillEnv) (rest : List (Int × FillEnv)),
      (processFill f env).2 = none →
      runFills ((f, env) :: rest) =
        ((processFill f env).1 ++ (runFills rest).1, (runFills rest).2)) ∧
    (∀ (f : Int) (env : FillEnv), (processFill f env).2 ≠ none ↔
      env.navOutcome ≠ Except.ok () ∨ env.shotOutcome ≠ Except.ok ()) := by
  refine ⟨fun pre f env rest rest' hpre hstep =>
      runFills_indep_of_rest f env hstep pre rest rest' hpre,
    fun f env hnav hshot => ?_, runFills_cons_ok, processFill_exc_iff⟩
  simp only [processFill, hnav, hshot]

/-- Witness for C5 at concrete environments: a navigation failure on the
first fill makes the remaining batch irrelevant, and an iteration whose
metadata and script steps fail but whose navigation and screenshot succeed
raises nothing. -/
theorem C5_witness :
    runFills ([] ++ (1, hardFailEnv) :: [(2, okEnv)]) =
      runFills ([] ++ (1, hardFailEnv) :: []) ∧
    (processFill 3 softSoftEnv).2 = none :=
  ⟨C5_hard_errors_abort_batch.1 [] 1 hardFailEnv [(2, okEnv)] [] rfl
      (by simp [processFill, hardFailEnv]),
   C5_hard_errors_abort_batch.2.1 3 softSoftEnv rfl rfl⟩

/-- C6: whenever the browser session was successfully created (driver
installed and Chrome launched), the orchestrator's event trace ends with
the browser-quit event on every exit path: normal completion, a caught
exception from the loop, a failed initial navigation, and a propagating
interruption at the login pause. -/
theorem C6_browser_quit_on_every_exit (env : OrchEnv)
    (h1 : env.driverInstall = Except.ok ()) (h2 : env.launch = Except.ok ()) :
    (download_plots env).1.getLast? = some Event.quitBrowser := by
  simp only [download_plots, h1, h2]
  rcases h3 : env.baseNav with e | ⟨⟩
  · rfl
  · rcases hi : env.interrupted with _ | _
    · simp only [hi, Bool.false_eq_true, if_false]
      exact List.getLast?_concat _
    · rfl

/-- Witness for C6: an interruption at the login pause still quits. -/
theorem C6_witness :
    (download_plots interruptedOrchEnv).1.getLast? = some Event.quitBrowser :=
  C6_browser_quit_on_every_exit interruptedOrchEnv rfl rfl

/-- C8 counterexample: the claim says the year is a four-character string or
exactly "UNKNOWN", but a response whose start time is the non-empty string
"ab" yields metadata with year "ab" — two characters and not the sentinel
(`start_time[:4]` truncates to at most four characters, it does not pad). -/
theorem C8_counterexample :
    (get_fill_metadata (ApiOutcome.success [shortStartEntry])).map Metadata.year =
      some "ab" ∧
    ("ab" : String).length ≠ 4 ∧ ("ab" : String) ≠ "UNKNOWN" :=
  ⟨by decide, by decide, by decide⟩

theorem year_cases (st : String) :
    (st = "" ∧ (if st != "" then String.mk (st.data.take 4) else "UNKNOWN") = "UNKNOWN") ∨
    (st ≠ "" ∧
     (if st != "" then String.mk (st.data.take 4) else "UNKNOWN").data = st.data.take 4 ∧
     1 ≤ (if st != "" then String.mk (st.data.take 4) else "UNKNOWN").length ∧
     (if st != "" then String.mk (st.data.take 4) else "UNKNOWN").length ≤ 4 ∧
     (4 ≤ st.length →
       (if st != "" then String.mk (st.data.take 4) else "UNKNOWN").length = 4)) := by
  rcases hst : (st != "") with _ | _
  · left
    refine ⟨by simpa using hst, ?_⟩
    rw [if_neg (by simp [hst])]
  · right
    have hne : st ≠ "" := by simpa [bne_iff_ne] using hst
    have hd : st.data ≠ [] := fun hh => hne (String.ext hh)
    have hp : 0 < st.data.length := List.length_pos.mpr hd
    have hsl : st.length = st.data.length := rfl
    refine ⟨hne, rfl, ?_, ?_, ?_⟩
    · show 1 ≤ (st.data.take 4).length
      rw [List.length_take]
      omega
    · show (st.data.take 4).length ≤ 4
      rw [List.length_take]
      omega
    · intro h4
      rw [hsl] at h4
      show (st.data.take 4).length = 4
      rw [List.length_take]
      omega

/-- C8 amended: whenever metadata is obtained, the response had at least one
entry, and the year of the metadata is either exactly the sentinel
"UNKNOWN" (the entry's start time absent or empty) or the first
at-most-four characters of that start time: a string of one to four
characters, exactly four whenever the start time has at least four. -/
theorem C8_amended_year_shape (o : ApiOutcome) (m : Metadata)
    (h : get_fill_metadata o = some m) :
    ∃ entry rest, o = ApiOutcome.success (entry :: rest) ∧
      ((entry.start_time.getD "" = "" ∧ m.year = "UNKNOWN") ∨
       (entry.start_time.getD "" ≠ "" ∧
        m.year.data = (entry.start_time.getD "").data.take 4 ∧
        1 ≤ m.year.length ∧ m.year.length ≤ 4 ∧
        (4 ≤ (entry.start_time.getD "").length → m.year.length = 4))) := by
  rcases o with msg | ls
  · exact absurd h (by simp [get_fill_metadata])
  · rcases ls with _ | ⟨a, rest⟩
    · exact absurd h (by simp [get_fill_metadata])
    · refine ⟨a, rest, rfl, ?_⟩
      simp only [get_fill_metadata] at h
      have hm := Option.some.inj h
      subst hm
      exact year_cases (a.start_time.getD "")

/-- Witness for the amended C8 at the short-start-time response. -/
theorem C8_amended_witness :
    ∃ entry rest,
      ApiOutcome.success [shortStartEntry] = ApiOutcome.success (entry :: rest) ∧
      ((entry.start_time.getD "" = "" ∧ ("ab" : String) = "UNKNOWN") ∨
       (entry.start_time.getD "" ≠ "" ∧
        ("ab" : String).data = (entry.start_time.getD "").data.take 4 ∧
        1 ≤ ("ab" : String).length ∧ ("ab" : String).length ≤ 4 ∧
        (4 ≤ (entry.start_time.getD "").length → ("ab" : String).length = 4))) :=
  C8_amended_year_shape (ApiOutcome.success [shortStartEntry])
    { bunches := 2400, system := "pp", fillType := "PROTONS", year := "ab" }
    (by decide)

/-- C9 counterexample: a readable-looking file named at the interactive
prompt whose read fails does not lead to a reported exit with status 1: the
`try` around the prompt catches only `KeyboardInterrupt`, so the read error
propagates as an uncaught exception. -/
theorem C9_counterexample :
    mainFlow promptUnreadableEnv = MainOutcome.uncaughtError "Permission denied" ∧
    MainOutcome.uncaughtError "Permission denied" ≠ MainOutcome.exited 1 :=
  ⟨by decide, by decide⟩

/-- C9 amended: an unreadable input file named as a command-line argument is
reported and the process exits with status 1; an unreadable file named at
the interactive prompt raises an uncaught exception instead (only
`KeyboardInterrupt` is handled on that path). -/
theorem C9_amended_read_errors (env : CliEnv) :
    (∀ (a : String) (rest : List String) (e : String),
      env.argv = a :: rest → env.isFile a = true →
      env.readFile a = Except.error e → mainFlow env = MainOutcome.exited 1) ∧
    (∀ e : String, env.argv = [] → env.stdinInterrupted = false →
      pyStrip env.stdinLine ≠ "" → env.isFile (pyStrip env.stdinLine) = true →
      env.readFile (pyStrip env.stdinLine) = Except.error e →
      mainFlow env = MainOutcome.uncaughtError e) := by
  constructor
  · intro a rest e hargv hfile hread
    simp only [mainFlow, hargv, hfile, hread, if_true]
  · intro e hargv hint hne hfile hread
    simp only [mainFlow, hargv, hint, Bool.false_eq_true, if_false]
    rw [if_pos (by simpa [bne_iff_ne] using hne), if_pos hfile, hread]

/-- Witness for the amended C9 at concrete environments. -/
theorem C9_amended_witness :
    mainFlow argvUnreadableEnv = MainOutcome.exited 1 ∧
    mainFlow promptUnreadableEnv = MainOutcome.uncaughtError "Permission denied" :=
  ⟨(C9_amended_read_errors argvUnreadableEnv).1 "fills.txt" ["11316"]
      "Permission denied" rfl rfl rfl,
   (C9_amended_read_errors promptUnreadableEnv).2 "Permission denied"
      rfl rfl (by decide) rfl rfl⟩

/-- C10: only the first command-line argument is tested for being a file.
If it names a file, its contents alone are parsed and the result does not
depend on the remaining arguments; otherwise all arguments are joined with
spaces and parsed as one blob, whether or not later arguments name files. -/
theorem C10_only_first_arg_checked :
    (∀ (env : CliEnv) (a : String) (rest : List String) (c : String),
      env.argv = a :: rest → env.isFile a = true → env.readFile a = Except.ok c →
      mainFlow env = finishWith (parse_input c)) ∧
    (∀ (env : CliEnv) (a : String) (rest : List String),
      env.argv = a :: rest → env.isFile a = false →
      mainFlow env = finishWith (parse_input (String.intercalate " " (a :: rest)))) ∧
    (∀ (isF : String → Bool) (rdF : String → Except String String) (si : Bool)
       (sl a : String) (rest rest' : List String), isF a = true →
      mainFlow { argv := a :: rest, isFile := isF, readFile := rdF,
                 stdinInterrupted := si, stdinLine := sl } =
      mainFlow { argv := a :: rest', isFile := isF, readFile := rdF,
                 stdinInterrupted := si, stdinLine := sl }) := by
  refine ⟨fun env a rest c hargv hfile hread => ?_,
    fun env a rest hargv hfile => ?_, fun isF rdF si sl a rest rest' hfile => ?_⟩
  · simp only [mainFlow, hargv, hfile, hread, if_true]
  · simp only [mainFlow, hargv, hfile, Bool.false_eq_true, if_false]
  · simp only [mainFlow, hfile, if_true]

/-- Witness for C10: a second argument that also names a file is ignored
when the first argument is a file; when the first is not a file all
arguments are joined and parsed. -/
theorem C10_witness :
    mainFlow twoFilesEnv = finishWith (parse_input "11316") ∧
    mainFlow noFileEnv =
      finishWith (parse_input (String.intercalate " " ["11316", "229854"])) ∧
    mainFlow twoFilesEnv = mainFlow oneFileEnv :=
  ⟨C10_only_first_arg_checked.1 twoFilesEnv "a.txt" ["b.txt"] "11316" rfl rfl rfl,
   C10_only_first_arg_checked.2.1 noFileEnv "11316" ["229854"] rfl rfl,
   C10_only_first_arg_checked.2.2 (fun _ => true) (fun _ => Except.ok "11316")
     false "" "a.txt" ["b.txt"] [] rfl⟩

end OmsTools
